import Mathlib

/-!
A verification development for the rich-cli terminal content renderer.

We give a shallow embedding of the core pipeline of `rich_cli/__main__.py`
(format resolution, line-range resolution, CSV normalisation, the renderable
decorator chain) and of the key state machine of `rich_cli/pager.py`, and we
prove properties about them.

Conventions:
  * Python `Optional[int]` becomes `Option Nat` (the CLI only admits
    non-negative ints for head/tail via `IntRange(min=1)`); truthiness of an
    optional int (`if head:`) is `none`/`some 0` falsy, everything else truthy.
  * `on_error(message)` (which prints once to the error console and calls
    `sys.exit(code)` with the default `code = -1`) becomes an `Except`
    error value carrying the message and the exit code.
  * External renderable classes from the `rich` library (Padding, Panel,
    Styled, Align) are modelled as constructors of an inductive `Renderable`
    type: the code only composes them, never inspects them.
-/

namespace RichCli

/-- Outcome of `on_error`: the message printed once to the error console and
the process exit code (`sys.exit(code)`, default `code = -1`). -/
structure AppError where
  message : String
  code : Int
  deriving Repr, DecidableEq

/-- Python truthiness of an `Optional[int]`: `None` and `0` are falsy. -/
def truthy : Option Nat → Bool
  | none => false
  | some n => n != 0

/-- Embedding of `_line_range(head, tail, num_lines)` from
`rich_cli/__main__.py` lines 781-794.  The source checks `if head and tail:`
(Python truthiness) and calls `on_error("cannot specify both head and tail")`,
otherwise returns `(1, head)`, `(num_lines - tail + 2, num_lines + 1)`,
or `None`. -/
def lineRange (head tail : Option Nat) (num_lines : Nat) :
    Except AppError (Option (Int × Int)) :=
  if truthy head && truthy tail then
    .error ⟨"cannot specify both head and tail", -1⟩
  else if truthy head then
    .ok (some (1, (head.getD 0 : Int)))
  else if truthy tail then
    .ok (some ((num_lines : Int) - (tail.getD 0 : Int) + 2, (num_lines : Int) + 1))
  else
    .ok none

/-! ## Format resolution (lines 443-508 of `__main__.py`) -/

/-- The mode constants `AUTO .. CSV` of `__main__.py` lines 43-51. -/
inductive RFormat where
  | auto | stx | print | markdown | rst | json | rule | inspect | csv
  deriving Repr, DecidableEq

/-- The eight explicit mode flags of the CLI (`--print`, `--syntax`,
`--json`, `--markdown`, `--rule`, `--inspect`, `--csv`, `--rst`). -/
structure ModeFlags where
  modePrint : Bool
  modeSyn : Bool
  modeJson : Bool
  modeMarkdown : Bool
  modeRule : Bool
  modeInspect : Bool
  modeCsv : Bool
  modeRst : Bool
  deriving Repr, DecidableEq

/-- Embedding of the explicit-flag `if/elif` chain of `main`
(`__main__.py` lines 464-480):
`if _print: ... elif syntax: ... elif json: ... elif markdown: ...
elif rule: ... elif inspect: ... elif csv: ... elif rst: ...`. -/
def resolveFormat (f : ModeFlags) : RFormat :=
  if f.modePrint then .print
  else if f.modeSyn then .stx
  else if f.modeJson then .json
  else if f.modeMarkdown then .markdown
  else if f.modeRule then .rule
  else if f.modeInspect then .inspect
  else if f.modeCsv then .csv
  else if f.modeRst then .rst
  else .auto

/-- First-match-wins selection over an ordered list of (flag, mode) pairs;
falls through to `auto` when no flag is set. -/
def pickFirst : List (Bool × RFormat) → RFormat
  | [] => .auto
  | (b, m) :: rest => if b then m else pickFirst rest

/-- The priority order actually implemented by the `if/elif` chain:
print > syntax > json > markdown > rule > inspect > csv > rst. -/
def codePriority (f : ModeFlags) : List (Bool × RFormat) :=
  [(f.modePrint, .print), (f.modeSyn, .stx), (f.modeJson, .json),
   (f.modeMarkdown, .markdown), (f.modeRule, .rule), (f.modeInspect, .inspect),
   (f.modeCsv, .csv), (f.modeRst, .rst)]

/-- The priority order asserted by the specification (§4.3):
print > rule > json > markdown > restructured-text > csv > syntax > inspect.
This definition follows the spec's words, for comparison with
`resolveFormat`, which follows the source. -/
def specPriority (f : ModeFlags) : List (Bool × RFormat) :=
  [(f.modePrint, .print), (f.modeRule, .rule), (f.modeJson, .json),
   (f.modeMarkdown, .markdown), (f.modeRst, .rst), (f.modeCsv, .csv),
   (f.modeSyn, .stx), (f.modeInspect, .inspect)]

/-! ## Tabular data normalisation (`render_csv`, lines 698-778 of `__main__.py`) -/

/-- Embedding of the compiled regex `\-?[0-9]*?\.?[0-9]*?` used with
`fullmatch` in `render_csv` (line 720).  Its language (lazy quantifiers do not
change acceptance under `fullmatch`) is: optional `-` sign, digits, optional
single `.`, digits, every part optional.  `numTail` accepts `[0-9]*\.?[0-9]*`. -/
def numTail (cs : List Char) : Bool :=
  match cs.dropWhile Char.isDigit with
  | [] => true
  | '.' :: rest => rest.all Char.isDigit
  | _ => false

/-- Embedding of `is_number` (line 720 of `__main__.py`): `fullmatch` against
`\-?[0-9]*?\.?[0-9]*?`. -/
def is_number (s : String) : Bool :=
  match s.toList with
  | '-' :: rest => numTail rest
  | cs => numTail cs

/-- Embedding of the head/tail row clip of `render_csv`
(lines 755-758): `if head is not None: table_rows[:head]
elif tail is not None: table_rows[-tail:]`.  Python `rows[-0:]` is the whole
list, hence the special case for `tail = 0`. -/
def clipRows (rows : List (List String)) (head tail : Option Nat) :
    List (List String) :=
  match head with
  | some h => rows.take h
  | none =>
    match tail with
    | some t => if t == 0 then rows else rows.drop (rows.length - t)
    | none => rows

/-- Column `i` passes the numeric scan of `render_csv` (lines 766-772): the
`for/else` loop marks the column numeric iff no row triggers `break`, i.e.
every retained row has a cell at index `i` (otherwise `itemgetter` raises and
the `except` branch breaks) and that cell is empty (falsy) or matches
`is_number`. -/
def colNumeric (table_rows : List (List String)) (i : Nat) : Bool :=
  table_rows.all fun row =>
    match row.get? i with
    | none => false
    | some v => v == "" || is_number v

/-- A column of the produced `rich.table.Table`: header text, justification
(rich default `"left"`), cell style and header style (rich default `""`). -/
structure TColumn where
  header : String
  justify : String
  style : String
  headerStyle : String
  deriving Repr, DecidableEq

/-- The `rich.table.Table` data observable from `render_csv`: the
`show_header` flag, the column list, and the added rows. -/
structure RTable where
  show_header : Bool
  columns : List TColumn
  rows : List (List String)
  deriving Repr, DecidableEq

/-- Embedding of the row/column construction of `render_csv`
(lines 737-778), starting from the parsed rows (`csv.reader` is an external
library; `parsed` is its output).  With a header the first parsed row becomes
the column names (the source would raise `StopIteration` on empty input with
`has_header`; that crash case is outside every claim and here yields the
empty header).  Empty rows are dropped, the head/tail clip is applied, rows
longer than the column list extend it with unnamed columns (as
`rich.table.Table.add_row` does), and each column passing the numeric scan is
right-justified and styled `"bold green"`. -/
def render_csv_core (parsed : List (List String)) (has_header : Bool)
    (head tail : Option Nat) : RTable :=
  let header := if has_header then parsed.headD [] else []
  let body := if has_header then parsed.tail else parsed
  let kept := body.filter (fun r => !r.isEmpty)
  let table_rows := clipRows kept head tail
  let ncols := table_rows.foldl (fun n r => max n r.length) header.length
  let columns := (List.range ncols).map fun i =>
    let name := header.getD i ""
    if colNumeric table_rows i then
      TColumn.mk name "right" "bold green" "bold green"
    else
      TColumn.mk name "left" "" ""
  RTable.mk has_header columns table_rows

/-- Embedding of the sniffing wrapper of `render_csv` (lines 723-735).  The
`csv.Sniffer` itself is an external library: `sniffed = some has_header` is a
successful sniff, `none` is a `csv.Error`, in which case the filename
fallback (`.csv` / `.tsv` imply a header) applies, else `on_error` exits. -/
def render_csv_model (sniffed : Option Bool) (resource : String)
    (errText : String) (parsed : List (List String)) (head tail : Option Nat) :
    Except AppError RTable :=
  match sniffed with
  | some has_header => .ok (render_csv_core parsed has_header head tail)
  | none =>
    if (resource.toLower).endsWith ".csv" then
      .ok (render_csv_core parsed true head tail)
    else if (resource.toLower).endsWith ".tsv" then
      .ok (render_csv_core parsed true head tail)
    else
      .error ⟨errText, -1⟩

/-! ## Renderable decorator chain (lines 620-678 of `__main__.py`) -/

/-- The renderable tree observable from `main`: an opaque base content object
wrapped by the decorators the code applies (`rich.padding.Padding`,
`rich.panel.Panel`, `rich.styled.Styled`, the local `ForceWidth`,
`rich.align.Align`).  The code only composes these constructors, never
inspects them, so they are modelled as an inductive type. -/
inductive Renderable where
  | base (id : Nat)
  | padding (inner : Renderable) (pad : List Int) (expand : Bool)
  | panel (inner : Renderable) (box : String) (expand : Bool)
      (title caption : String) (borderStyle : String)
  | styled (inner : Renderable) (style : String)
  | forceWidth (inner : Renderable) (width : Int)
  | align (inner : Renderable) (justify : String)
  deriving Repr, DecidableEq

/-- The layout parameters of `main` that drive the decorator chain:
`print_padding` (the parsed `--padding`, `[]` when absent), `--panel`
(default `"none"`), `--panel-style`, `--style` (default `""`), `--width`
(default `-1`), `--expand`, `--pager`, the alignment flags and the panel
title/caption. -/
structure LayoutOptions where
  padding : List Int
  panel : String
  panelStyle : String
  style : String
  width : Int
  expand : Bool
  pager : Bool
  left : Bool
  right : Bool
  center : Bool
  title : String
  caption : String
  deriving Repr, DecidableEq

/-- Lines 449-450 of `__main__.py`: `if width > 0: expand = True`. -/
def effExpand (o : LayoutOptions) : Bool :=
  if o.width > 0 then true else o.expand

/-- Embedding of lines 620-656 of `main`: the successive reassignments
`renderable = Padding(renderable, ...)`, `renderable = Panel(renderable,
...)`, `renderable = Styled(renderable, ...)`,
`renderable = ForceWidth(renderable, ...)`, each guarded by its option. -/
def decorate (o : LayoutOptions) (r : Renderable) : Renderable :=
  let expand := if o.width > 0 then true else o.expand
  let r1 := if !o.padding.isEmpty then Renderable.padding r o.padding expand else r
  let r2 :=
    if o.panel != "none" then
      Renderable.panel r1 o.panel expand o.title o.caption o.panelStyle
    else r1
  let r3 := if o.style != "" then Renderable.styled r2 o.style else r2
  let r4 :=
    if o.width > 0 && !o.pager then Renderable.forceWidth r3 o.width else r3
  r4

/-- The padding stage in isolation (line 620-623). -/
def paddingStage (o : LayoutOptions) (r : Renderable) : Renderable :=
  if !o.padding.isEmpty then Renderable.padding r o.padding (effExpand o) else r

/-- The panel stage in isolation (lines 625-642). -/
def panelStage (o : LayoutOptions) (r : Renderable) : Renderable :=
  if o.panel != "none" then
    Renderable.panel r o.panel (effExpand o) o.title o.caption o.panelStyle
  else r

/-- The style stage in isolation (lines 644-653). -/
def styleStage (o : LayoutOptions) (r : Renderable) : Renderable :=
  if o.style != "" then Renderable.styled r o.style else r

/-- The width-clamp stage in isolation (lines 655-656). -/
def widthStage (o : LayoutOptions) (r : Renderable) : Renderable :=
  if o.width > 0 && !o.pager then Renderable.forceWidth r o.width else r

/-- Lines 658-664 of `main`: the output justification from the alignment
flags, first match wins. -/
def justifyOf (o : LayoutOptions) : String :=
  if o.left then "left"
  else if o.right then "right"
  else if o.center then "center"
  else "default"

/-- Whether a renderable tree contains a `ForceWidth` wrapper. -/
def hasForceWidth : Renderable → Bool
  | .base _ => false
  | .padding r _ _ => hasForceWidth r
  | .panel r _ _ _ _ _ => hasForceWidth r
  | .styled r _ => hasForceWidth r
  | .forceWidth _ _ => true
  | .align r _ => hasForceWidth r

/-- The observable end of `main` (lines 666-689): either the decorated
renderable is printed directly (with the computed justification), or, under
`--pager`, it is first wrapped in `Align` when a justification is set and
then pre-rendered by `console.render_lines` at `width - 1`, where `width`
falls back to the console width when negative. -/
inductive MainOutput where
  | printed (r : Renderable) (justify : String)
  | paged (r : Renderable) (renderWidth : Int)
  deriving Repr, DecidableEq

/-- Embedding of lines 620-678 of `main`: decorate, then dispatch to the
pager (pre-rendering at `width - 1`) or to direct printing. -/
def mainOutput (o : LayoutOptions) (consoleWidth : Int) (r : Renderable) :
    MainOutput :=
  let d := decorate o r
  let justify := justifyOf o
  if o.pager then
    let d := if justify != "default" then Renderable.align d justify else d
    let w := if o.width < 0 then consoleWidth else o.width
    .paged d (w - 1)
  else
    .printed d justify

/-! ## Pager key handling (`PagerApp.on_key`, lines 63-103 of `pager.py`) -/

/-- The pager scroll state: the `_g_key_pressed_before` one-shot flag and
the scroll target offset `target_y` of the `ScrollView` body. -/
structure PagerState where
  gPressed : Bool
  targetY : Int
  deriving Repr, DecidableEq

/-- Modelled from the spec: the `textual` library's `ScrollView` (not part of
this repository) clamps every offset into `[0, maxY]` after each transition
(§4.5: "Offsets are always clamped into range after every transition"). -/
def clampY (maxY y : Int) : Int := max 0 (min y maxY)

/-- Embedding of `PagerApp.on_key` (lines 63-103 of `pager.py`) as a state
transition per key event.  `height` is `self.body.size.height` (the viewport
height) and `maxY` is `self.body.max_scroll_y` (total height minus viewport
height).  The `g` branch implements the double-`g` chord exactly as the
source does; every other branch first clears `_g_key_pressed_before` and then
performs its scroll action.  The scroll actions `scroll_up` (`j`, one line
down), `scroll_down` (`k`, one line up) and `page_down` (space) live in the
external `textual.ScrollView` and are modelled from the spec (§4.5); the
`u`/`d`/`b`/`f`/`G` targets are the source's own arithmetic on `target_y`
(Python `//` is floor division, hence `Int.fdiv`), clamped by the
`ScrollView` as above.  Animation easing is presentation only; the state
carries the target offset. -/
def onKey (height maxY : Int) (key : String) (s : PagerState) : PagerState :=
  if key == "g" then
    if !s.gPressed then { s with gPressed := true }
    else { gPressed := false, targetY := clampY maxY 0 }
  else
    let s : PagerState := { s with gPressed := false }
    if key == "G" then { s with targetY := clampY maxY maxY }
    else if key == "j" then { s with targetY := clampY maxY (s.targetY + 1) }
    else if key == "k" then { s with targetY := clampY maxY (s.targetY - 1) }
    else if key == " " then { s with targetY := clampY maxY (s.targetY + height) }
    else if key == "u" || key == "ctrl+u" then
      { s with targetY := clampY maxY (s.targetY - Int.fdiv height 2) }
    else if key == "d" || key == "ctrl+d" then
      { s with targetY := clampY maxY (s.targetY + Int.fdiv height 2) }
    else if key == "b" || key == "ctrl+b" then
      { s with targetY := clampY maxY (s.targetY - height) }
    else if key == "f" || key == "ctrl+f" then
      { s with targetY := clampY maxY (s.targetY + height) }
    else s

/-- Fold a sequence of key events through `onKey`. -/
def runKeys (height maxY : Int) (keys : List String) (s : PagerState) :
    PagerState :=
  keys.foldl (fun s k => onKey height maxY k s) s

/-! ## Theorems -/

/-- C1, counterexample: with `--syntax` and `--rule` both set (more than one
explicit mode flag), the `if/elif` chain of `main` picks `SYNTAX`, whereas
the priority order claimed by the spec (print > rule > json > markdown >
restructured-text > csv > syntax > inspect) would pick `RULE`. -/
theorem C1_counterexample :
    resolveFormat ⟨false, true, false, false, true, false, false, false⟩ =
      RFormat.stx ∧
    pickFirst (specPriority
      ⟨false, true, false, false, true, false, false, false⟩) = RFormat.rule ∧
    RFormat.stx ≠ RFormat.rule := by
  decide

/-- C1, amended: for every combination of explicit mode flags, the format
resolver deterministically picks a single mode by the priority order
print > syntax > json > markdown > rule > inspect > csv > rst (first match
wins) and never errors; the chosen mode is the highest-priority set flag
under this order, and `AUTO` results exactly when no flag is set. -/
theorem C1_flag_priority (f : ModeFlags) :
    resolveFormat f = pickFirst (codePriority f) ∧
    (resolveFormat f = RFormat.auto ↔
      f = ⟨false, false, false, false, false, false, false, false⟩) := by
  obtain ⟨a, b, c, d, e, g, k, l⟩ := f
  constructor
  · rfl
  · revert a b c d e g k l
    decide

/-- C2: with exactly one of head/tail provided (both positive), `_line_range`
returns the inclusive range `(1, head)` for head and
`(totalLines - tail + 2, totalLines + 1)` for tail; in particular
`totalLines = 100`, `tail = 10` yields `(92, 101)`. -/
theorem C2_line_range (numLines h t : Nat) (hh : 0 < h) (ht : 0 < t) :
    lineRange (some h) none numLines = .ok (some (1, (h : Int))) ∧
    lineRange none (some t) numLines =
      .ok (some ((numLines : Int) - (t : Int) + 2, (numLines : Int) + 1)) ∧
    lineRange none (some 10) 100 = .ok (some (92, 101)) := by
  refine ⟨?_, ?_, rfl⟩
  · simp [lineRange, truthy, hh.ne']
  · simp [lineRange, truthy, ht.ne']

/-- Witness for C2 at `numLines = 100`, `h = 7`, `t = 10`. -/
theorem C2_line_range_witness :
    lineRange (some 7) none 100 = .ok (some (1, 7)) ∧
    lineRange none (some 10) 100 = .ok (some (92, 101)) ∧
    lineRange none (some 10) 100 = .ok (some (92, 101)) :=
  C2_line_range 100 7 10 (by decide) (by decide)

/-- C3: with both head and tail provided (any positive values),
`_line_range` fails via `on_error("cannot specify both head and tail")`:
no range is returned, the message is reported once, and the process exit
code `-1` is non-zero. -/
theorem C3_conflict (numLines h t : Nat) (hh : 0 < h) (ht : 0 < t) :
    lineRange (some h) (some t) numLines =
      .error ⟨"cannot specify both head and tail", -1⟩ ∧
    ((-1 : Int) ≠ 0) := by
  refine ⟨?_, by decide⟩
  simp [lineRange, truthy, hh.ne', ht.ne']

/-- Witness for C3 at `numLines = 100`, `h = 3`, `t = 4`. -/
theorem C3_conflict_witness :
    lineRange (some 3) (some 4) 100 =
      .error ⟨"cannot specify both head and tail", -1⟩ ∧
    ((-1 : Int) ≠ 0) :=
  C3_conflict 100 3 4 (by decide) (by decide)

/-- C4, counterexample: `render_csv` with both `head = 1` and `tail = 1` on a
sniffed 3-data-row csv does not fail with any error: it returns the table
clipped to the first row (head applied, tail ignored). -/
theorem C4_counterexample :
    render_csv_model (some true) "data.csv" "err"
      [["a", "b"], ["1", "2"], ["3", "4"], ["5", "6"]] (some 1) (some 1) =
      .ok ⟨true,
        [⟨"a", "right", "bold green", "bold green"⟩,
         ⟨"b", "right", "bold green", "bold green"⟩],
        [["1", "2"]]⟩ := by
  rfl

/-- C4, amended: when both head and tail are provided to the tabular data
normalizer, it does not fail: head takes precedence, the rows are clipped to
the first `head` rows exactly as if tail had not been given, and tail is
ignored. -/
theorem C4_head_precedence (parsed : List (List String)) (has_header : Bool)
    (h t : Nat) (res err : String) :
    render_csv_model (some has_header) res err parsed (some h) (some t) =
      .ok (render_csv_core parsed has_header (some h) none) ∧
    render_csv_core parsed has_header (some h) (some t) =
      render_csv_core parsed has_header (some h) none := by
  exact ⟨rfl, rfl⟩

/-! ## Helper lemmas for the tabular normalizer -/

/-- The column names of `render_csv_core`: the first parsed row under a
header, else none. -/
def headerOf (parsed : List (List String)) (has_header : Bool) : List String :=
  if has_header then parsed.headD [] else []

/-- The retained rows of `render_csv_core`: body rows with empty rows
dropped, then head/tail clipped. -/
def tableRowsOf (parsed : List (List String)) (has_header : Bool)
    (head tail : Option Nat) : List (List String) :=
  clipRows ((if has_header then parsed.tail else parsed).filter
    fun r => !r.isEmpty) head tail

/-- The column count of the produced table: header length extended by any
longer retained row (as `rich.table.Table.add_row` extends the columns). -/
def ncolsOf (parsed : List (List String)) (has_header : Bool)
    (head tail : Option Nat) : Nat :=
  (tableRowsOf parsed has_header head tail).foldl (fun n r => max n r.length)
    (headerOf parsed has_header).length

/-- The column produced at index `i`: right-justified and `"bold green"`
when the numeric scan passes, default left-justified unstyled otherwise. -/
def colAt (header : List String) (table_rows : List (List String)) (i : Nat) :
    TColumn :=
  let name := header.getD i ""
  if colNumeric table_rows i then TColumn.mk name "right" "bold green" "bold green"
  else TColumn.mk name "left" "" ""

theorem render_csv_core_eq (parsed : List (List String)) (has_header : Bool)
    (head tail : Option Nat) :
    render_csv_core parsed has_header head tail =
      RTable.mk has_header
        ((List.range (ncolsOf parsed has_header head tail)).map
          (colAt (headerOf parsed has_header)
            (tableRowsOf parsed has_header head tail)))
        (tableRowsOf parsed has_header head tail) := rfl

theorem render_csv_core_columns_length (parsed : List (List String))
    (has_header : Bool) (head tail : Option Nat) :
    (render_csv_core parsed has_header head tail).columns.length =
      ncolsOf parsed has_header head tail := by
  rw [render_csv_core_eq]
  simp

theorem render_csv_core_columns_getD (parsed : List (List String))
    (has_header : Bool) (head tail : Option Nat) (i : Nat) (d : TColumn)
    (hi : i < ncolsOf parsed has_header head tail) :
    (render_csv_core parsed has_header head tail).columns.getD i d =
      colAt (headerOf parsed has_header)
        (tableRowsOf parsed has_header head tail) i := by
  rw [render_csv_core_eq]
  simp [List.getD_eq_getElem?_getD, List.getElem?_map, List.getElem?_range, hi]

theorem colNumeric_iff (rows : List (List String)) (i : Nat)
    (hrect : ∀ row ∈ rows, i < row.length) :
    colNumeric rows i = true ↔
      ∀ row ∈ rows,
        row.getD i "" = "" ∨ is_number (row.getD i "") = true := by
  unfold colNumeric
  rw [List.all_eq_true]
  refine forall_congr' fun row => ?_
  constructor
  · intro h hrow
    have hlen := hrect row hrow
    have h2 := h hrow
    rw [List.get?_eq_getElem?, List.getElem?_eq_getElem hlen] at h2
    simp only [Bool.or_eq_true, beq_iff_eq] at h2
    rw [List.getD_eq_getElem?_getD, List.getElem?_eq_getElem hlen]
    exact h2
  · intro h hrow
    have hlen := hrect row hrow
    have h2 := h hrow
    rw [List.getD_eq_getElem?_getD, List.getElem?_eq_getElem hlen] at h2
    rw [List.get?_eq_getElem?, List.getElem?_eq_getElem hlen]
    simp only [Bool.or_eq_true, beq_iff_eq]
    exact h2

/-- C5: in a normalized table (every retained row reaching column `i`),
column `i` is right-justified with the `"bold green"` numeric style if and
only if every non-empty retained cell of the column matches the numeric
pattern (which holds vacuously for an all-empty column); and on input
`"a,b\n1,2\n3,x\n"` with a header, column `a` is right-justified/styled
while column `b` stays left-justified and unstyled. -/
theorem C5_numeric_inference (parsed : List (List String)) (has_header : Bool)
    (head tail : Option Nat) (i : Nat)
    (hi : i < (render_csv_core parsed has_header head tail).columns.length)
    (hrect : ∀ row ∈ (render_csv_core parsed has_header head tail).rows,
      i < row.length) :
    ((((render_csv_core parsed has_header head tail).columns.getD i
        (TColumn.mk "" "left" "" "")).justify = "right" ∧
      ((render_csv_core parsed has_header head tail).columns.getD i
        (TColumn.mk "" "left" "" "")).style = "bold green") ↔
      ∀ row ∈ (render_csv_core parsed has_header head tail).rows,
        row.getD i "" = "" ∨ is_number (row.getD i "") = true) ∧
    render_csv_core [["a", "b"], ["1", "2"], ["3", "x"]] true none none =
      ⟨true, [⟨"a", "right", "bold green", "bold green"⟩,
              ⟨"b", "left", "", ""⟩],
       [["1", "2"], ["3", "x"]]⟩ := by
  constructor
  · rw [render_csv_core_columns_length] at hi
    rw [render_csv_core_columns_getD parsed has_header head tail i _ hi]
    have hrows : (render_csv_core parsed has_header head tail).rows =
        tableRowsOf parsed has_header head tail := rfl
    rw [hrows] at hrect ⊢
    rw [← colNumeric_iff _ _ hrect]
    unfold colAt
    by_cases hc : colNumeric (tableRowsOf parsed has_header head tail) i = true
    · simp [hc]
    · simp [hc]
  · decide

/-- Witness for C5: the iff applied to column 0 of the spec's example table
shows it right-justified given that its cells `"1"`, `"3"` are numeric. -/
theorem C5_numeric_inference_witness :
    ((render_csv_core [["a", "b"], ["1", "2"], ["3", "x"]] true none
        none).columns.getD 0 (TColumn.mk "" "left" "" "")).justify =
      "right" :=
  ((C5_numeric_inference [["a", "b"], ["1", "2"], ["3", "x"]] true none none 0
      (by decide) (by decide)).1.mpr (by decide)).1

/-- C6: for every combination of layout options, the decorator chain of
`main` applies its transforms in exactly the order padding → panel → style →
width-clamp, each stage wrapping the previous result, and each stage
returns its input unchanged when its option is at its default
(`--padding` absent, `--panel none`, empty `--style`, non-positive
`--width`). -/
theorem C6_decorator_order (o : LayoutOptions) (r : Renderable) :
    decorate o r =
      widthStage o (styleStage o (panelStage o (paddingStage o r))) ∧
    (o.padding = [] → paddingStage o r = r) ∧
    (o.panel = "none" → panelStage o r = r) ∧
    (o.style = "" → styleStage o r = r) ∧
    (o.width ≤ 0 → widthStage o r = r) := by
  refine ⟨rfl, ?_, ?_, ?_, ?_⟩
  · intro h
    simp [paddingStage, h]
  · intro h
    simp [panelStage, h]
  · intro h
    simp [styleStage, h]
  · intro h
    have hlt : ¬ o.width > 0 := not_lt.mpr h
    simp [widthStage, hlt]

/-- Witness for C6 at the all-default options and a base renderable. -/
theorem C6_decorator_order_witness :
    decorate ⟨[], "none", "", "", -1, false, false, false, false, false, "", ""⟩
        (.base 0) =
      widthStage ⟨[], "none", "", "", -1, false, false, false, false, false, "", ""⟩
        (styleStage ⟨[], "none", "", "", -1, false, false, false, false, false, "", ""⟩
          (panelStage ⟨[], "none", "", "", -1, false, false, false, false, false, "", ""⟩
            (paddingStage
              ⟨[], "none", "", "", -1, false, false, false, false, false, "", ""⟩
              (.base 0)))) ∧
    paddingStage ⟨[], "none", "", "", -1, false, false, false, false, false, "", ""⟩
      (.base 0) = .base 0 ∧
    panelStage ⟨[], "none", "", "", -1, false, false, false, false, false, "", ""⟩
      (.base 0) = .base 0 ∧
    styleStage ⟨[], "none", "", "", -1, false, false, false, false, false, "", ""⟩
      (.base 0) = .base 0 ∧
    widthStage ⟨[], "none", "", "", -1, false, false, false, false, false, "", ""⟩
      (.base 0) = .base 0 := by
  obtain ⟨h1, h2, h3, h4, h5⟩ :=
    C6_decorator_order
      ⟨[], "none", "", "", -1, false, false, false, false, false, "", ""⟩ (.base 0)
  exact ⟨h1, h2 rfl, h3 rfl, h4 rfl, h5 (by decide)⟩

/-- C7: decorating any renderable with every layout option at its no-op
default (no padding, `--panel none`, empty style, width unset at `-1`)
returns the renderable itself, whatever the remaining flags; the full
decorator chain at defaults is the identity, so the rendered output is that
of the undecorated input. -/
theorem C7_default_identity (r : Renderable)
    (panelStyle title caption : String)
    (expand pager alignL alignR alignC : Bool) :
    decorate
      ⟨[], "none", panelStyle, "", -1, expand, pager, alignL, alignR, alignC,
       title, caption⟩ r = r := rfl

theorem runKeys_cons (height maxY : Int) (k : String) (ks : List String)
    (s : PagerState) :
    runKeys height maxY (k :: ks) s =
      runKeys height maxY ks (onKey height maxY k s) := rfl

theorem clampY_nonneg (maxY y : Int) : 0 ≤ clampY maxY y :=
  le_max_left 0 _

theorem clampY_le (maxY y : Int) (hM : 0 ≤ maxY) : clampY maxY y ≤ maxY :=
  max_le hM (min_le_right y maxY)

theorem clampY_zero (maxY : Int) (hM : 0 ≤ maxY) : clampY maxY 0 = 0 := by
  unfold clampY
  rw [min_eq_left hM, max_self]

set_option maxHeartbeats 1000000 in
/-- Each `on_key` transition either keeps `target_y` or sets it to a clamped
value. -/
theorem onKey_targetY_cases (height maxY : Int) (key : String)
    (s : PagerState) :
    (onKey height maxY key s).targetY = s.targetY ∨
    ∃ z, (onKey height maxY key s).targetY = clampY maxY z := by
  obtain ⟨gp, ty⟩ := s
  unfold onKey
  split_ifs <;>
    first
      | exact Or.inl rfl
      | exact Or.inr ⟨_, rfl⟩

theorem onKey_mem (height maxY : Int) (hM : 0 ≤ maxY) (key : String)
    (s : PagerState) (h0 : 0 ≤ s.targetY ∧ s.targetY ≤ maxY) :
    0 ≤ (onKey height maxY key s).targetY ∧
      (onKey height maxY key s).targetY ≤ maxY := by
  rcases onKey_targetY_cases height maxY key s with h | ⟨z, h⟩
  · rw [h]
    exact h0
  · rw [h]
    exact ⟨clampY_nonneg maxY z, clampY_le maxY z hM⟩

theorem runKeys_mem (height maxY : Int) (hM : 0 ≤ maxY) (keys : List String)
    (s : PagerState) (h0 : 0 ≤ s.targetY ∧ s.targetY ≤ maxY) :
    0 ≤ (runKeys height maxY keys s).targetY ∧
      (runKeys height maxY keys s).targetY ≤ maxY := by
  induction keys generalizing s with
  | nil => exact h0
  | cons k ks ih =>
    rw [runKeys_cons]
    exact ih (onKey height maxY k s) (onKey_mem height maxY hM k s h0)

/-- C8: in the pager, a `g` press with the pending-double-g flag clear sets
the flag and causes no scroll; a `g` press with the flag set jumps the
scroll target to 0 and clears the flag; every other key clears the flag and
performs only its own scroll action, independent of the flag (so it never
triggers the double-g jump); the flag after any key is exactly
`key = "g" ∧ flag was clear`, i.e. it changes only on key events (the model
has no time-based transition at all); and in the spec's scenario
`g, j, g, g` from a clear flag, the lone leading `g` followed by `j` leaves
the offset one line down (not at the top) and only the final `g, g` pair
jumps to offset 0. -/
theorem C8_double_g (height maxY : Int) (hM : 0 ≤ maxY) (s : PagerState)
    (key : String) (y : Int) :
    (s.gPressed = false → onKey height maxY "g" s = ⟨true, s.targetY⟩) ∧
    (s.gPressed = true → onKey height maxY "g" s = ⟨false, 0⟩) ∧
    (key ≠ "g" → (onKey height maxY key s).gPressed = false ∧
      onKey height maxY key s = onKey height maxY key ⟨false, s.targetY⟩) ∧
    ((onKey height maxY key s).gPressed = (key == "g" && !s.gPressed)) ∧
    runKeys height maxY ["g", "j"] ⟨false, y⟩ =
      ⟨false, clampY maxY (y + 1)⟩ ∧
    runKeys height maxY ["g", "j", "g", "g"] ⟨false, y⟩ = ⟨false, 0⟩ := by
  obtain ⟨gp, ty⟩ := s
  refine ⟨?_, ?_, ?_, ?_, rfl, ?_⟩
  · intro h
    subst h
    rfl
  · intro h
    subst h
    show PagerState.mk false (clampY maxY 0) = ⟨false, 0⟩
    rw [clampY_zero maxY hM]
  · intro hk
    have hbeq : (key == "g") = false := by
      simp [hk]
    constructor
    · simp only [onKey, hbeq, Bool.false_eq_true, if_false]
      split_ifs <;> rfl
    · simp only [onKey, hbeq, Bool.false_eq_true, if_false]
  · by_cases hk : key = "g"
    · subst hk
      cases gp <;> rfl
    · have hbeq : (key == "g") = false := by
        simp [hk]
      rw [hbeq]
      simp only [onKey, hbeq, Bool.false_eq_true, if_false, Bool.false_and]
      split_ifs <;> rfl
  · show PagerState.mk false (clampY maxY 0) = ⟨false, 0⟩
    rw [clampY_zero maxY hM]

/-- Witness for C8: a first `g` only sets the flag, and the `g, j, g, g`
sequence ends at offset 0. -/
theorem C8_double_g_witness :
    onKey 10 5 "g" ⟨false, 2⟩ = ⟨true, 2⟩ ∧
    runKeys 10 5 ["g", "j", "g", "g"] ⟨false, 3⟩ = ⟨false, 0⟩ := by
  obtain ⟨h1, _, _, _, _, h6⟩ :=
    C8_double_g 10 5 (by decide) ⟨false, 2⟩ "j" 3
  exact ⟨h1 rfl, h6⟩

/-- C9: for every sequence of pager key events, starting from an offset
inside `[0, totalHeight - viewportHeight]`, the scroll target after every
transition stays within `[0, totalHeight - viewportHeight]`: no key press
moves the viewport past the top or the bottom of the content. -/
theorem C9_scroll_clamp (height totalHeight viewportHeight : Int)
    (hview : viewportHeight ≤ totalHeight) (keys : List String)
    (s : PagerState) (hlo : 0 ≤ s.targetY)
    (hhi : s.targetY ≤ totalHeight - viewportHeight) :
    0 ≤ (runKeys height (totalHeight - viewportHeight) keys s).targetY ∧
      (runKeys height (totalHeight - viewportHeight) keys s).targetY ≤
        totalHeight - viewportHeight :=
  runKeys_mem height (totalHeight - viewportHeight) (by omega) keys s
    ⟨hlo, hhi⟩

/-- Witness for C9 at the spec's example: viewport 20 over 25 content lines,
fifteen `j` presses from offset 0 stay within `[0, 5]`. -/
theorem C9_scroll_clamp_witness :
    0 ≤ (runKeys 20 (25 - 20)
        ["j", "j", "j", "j", "j", "j", "j", "j", "j", "j", "j", "j", "j",
         "j", "j"] ⟨false, 0⟩).targetY ∧
      (runKeys 20 (25 - 20)
        ["j", "j", "j", "j", "j", "j", "j", "j", "j", "j", "j", "j", "j",
         "j", "j"] ⟨false, 0⟩).targetY ≤ 25 - 20 :=
  C9_scroll_clamp 20 25 20 (by decide) _ ⟨false, 0⟩ (by decide) (by decide)

theorem hasForceWidth_decorate_pager (o : LayoutOptions) (r : Renderable)
    (hp : o.pager = true) :
    hasForceWidth (decorate o r) = hasForceWidth r := by
  simp only [decorate, hp, Bool.not_true, Bool.and_false, Bool.false_eq_true,
    if_false]
  split_ifs <;> simp [hasForceWidth]

/-- C10: whenever the interactive pager flag is set, the width-clamp stage
(`ForceWidth`) is never applied even for a positive `--width`: the paged
renderable contains a `ForceWidth` wrapper only if the base content already
did, and it is pre-rendered into the fixed line buffer at width one less
than the requested width (or the console width when no width was
requested). -/
theorem C10_pager_no_force_width (o : LayoutOptions) (consoleWidth : Int)
    (r : Renderable) (hp : o.pager = true) :
    ∃ d, mainOutput o consoleWidth r =
        .paged d ((if o.width < 0 then consoleWidth else o.width) - 1) ∧
      hasForceWidth d = hasForceWidth r := by
  refine ⟨if justifyOf o != "default" then
      Renderable.align (decorate o r) (justifyOf o) else decorate o r,
    ?_, ?_⟩
  · simp [mainOutput, hp]
  · split_ifs
    · simp [hasForceWidth, hasForceWidth_decorate_pager o r hp]
    · exact hasForceWidth_decorate_pager o r hp

/-- Witness for C10: with the pager on and `--width 40` on an 80-column
console, the output is paged at render width 39 and no `ForceWidth` wrapper
is introduced. -/
theorem C10_pager_no_force_width_witness :
    ∃ d, mainOutput
        ⟨[], "none", "", "", 40, false, true, false, false, false, "", ""⟩ 80
        (.base 0) =
        .paged d ((if (40 : Int) < 0 then 80 else 40) - 1) ∧
      hasForceWidth d = hasForceWidth (.base 0) :=
  C10_pager_no_force_width
    ⟨[], "none", "", "", 40, false, true, false, false, false, "", ""⟩ 80
    (.base 0) rfl

end RichCli
